import Mathlib

/-!
Shallow embedding of the browser-zoom / stream-acquisition bootstrap of
`src/scripts/main.js` (the `browser_api.js` section plus the redirect-marker
helpers), together with theorems settling the spec claims about it.

Modelling conventions:
* `chrome.tabs` may be absent; it is modelled as an `Option TabsApi`.
  A JavaScript access to a member of the absent `chrome.tabs` throws, which
  aborts the promise chain, so the bootstrap functions that perform such an
  access return `Except` and yield `Except.error` in that situation.
* Every asynchronous host call is recorded in a `List HostCall` trace, in the
  order the promise chain issues the requests.  Calls that `Promise.all`
  issues concurrently are recorded in the order the source pushes them; the
  happens-before structure between the phases of the chain is preserved
  exactly (a `.then` continuation's calls appear after the calls it waits on).
* Zoom factors are modelled as rationals (`Rat`).
-/

/-- `BrowserApi.ZoomBehavior` enum: `{NONE: 0, MANAGE: 1, PROPAGATE_PARENT: 2}`. -/
inductive ZoomBehavior where
  | NONE
  | MANAGE
  | PROPAGATE_PARENT
deriving DecidableEq, Repr

/-- A browser tab as returned by `chrome.tabs.get` / `chrome.tabs.getCurrent`:
the fields the source reads are `id` and `url`. -/
structure Tab where
  id : Int
  url : String
deriving DecidableEq, Repr

/-- The stream object: fields read or written by the embedded code.
`mimeType` is absent (`none`) on the print-preview path, where the source
builds the object without that property; `tabUrl` is absent until a tab
lookup populates it. -/
structure StreamInfo where
  streamUrl : String
  originalUrl : String
  responseHeaders : List (String × String)
  embedded : Bool
  tabId : Int
  mimeType : Option String := none
  tabUrl : Option String := none
deriving DecidableEq, Repr

/-- One asynchronous request to the host browser, as issued by the bootstrap. -/
inductive HostCall where
  | getStreamInfo
  | getZoomSettings (tabId : Int)
  | getZoom (tabId : Int)
  | getTab (tabId : Int)
  | getCurrentTab
  | setZoomSettings (tabId : Int) (mode : String) (scope : String)
  | setZoom (tabId : Int) (factor : Rat)
deriving DecidableEq, Repr

/-- The `chrome.tabs` API surface the bootstrap consumes, as host-supplied
responses: `getZoomSettings(tabId).defaultZoomFactor`, `getZoom(tabId)`,
`get(tabId)` (which may deliver no tab), and `getCurrent()` (the source reads
`tab.id` and `tab.url` without a null check, so the current tab is total). -/
structure TabsApi where
  zoomSettingsDefault : Int → Rat
  currentZoom : Int → Rat
  tabs : Int → Option Tab
  currentTab : Tab

/-- The host environment: `chrome.tabs` (possibly absent) and the stream info
that `chrome.mimeHandlerPrivate.getStreamInfo` delivers. -/
structure ChromeEnv where
  tabsApi : Option TabsApi
  streamInfoResult : StreamInfo

/-- `lookupDefaultZoom(streamInfo)`: resolves to `1` without a host call when
`chrome.tabs` is absent or `streamInfo.tabId < 0`, otherwise asks the host
for the tab's zoom settings and resolves to `defaultZoomFactor`. -/
def lookupDefaultZoom (env : ChromeEnv) (streamInfo : StreamInfo) :
    Rat × List HostCall :=
  match env.tabsApi with
  | none => (1, [])
  | some tabs =>
    if streamInfo.tabId < 0 then (1, [])
    else (tabs.zoomSettingsDefault streamInfo.tabId,
          [HostCall.getZoomSettings streamInfo.tabId])

/-- `lookupInitialZoom(streamInfo)`: resolves to `1` without a host call when
`chrome.tabs` is absent or `streamInfo.tabId < 0`, otherwise asks the host
for the tab's current zoom via `chrome.tabs.getZoom`. -/
def lookupInitialZoom (env : ChromeEnv) (streamInfo : StreamInfo) :
    Rat × List HostCall :=
  match env.tabsApi with
  | none => (1, [])
  | some tabs =>
    if streamInfo.tabId < 0 then (1, [])
    else (tabs.currentZoom streamInfo.tabId,
          [HostCall.getZoom streamInfo.tabId])

/-- The `BrowserApi` instance: the four fields set by the constructor and
never reassigned afterwards. -/
structure BrowserApi where
  streamInfo_ : StreamInfo
  defaultZoom_ : Rat
  initialZoom_ : Rat
  zoomBehavior_ : ZoomBehavior
deriving DecidableEq, Repr

namespace BrowserApi

/-- `BrowserApi.create(streamInfo, zoomBehavior)`:
`Promise.all([lookupDefaultZoom, lookupInitialZoom])` then construct.  Both
lookups are issued concurrently; the constructor runs only after both have
resolved, with `zoomFactors[0]` and `zoomFactors[1]` as the zoom fields. -/
def create (env : ChromeEnv) (streamInfo : StreamInfo)
    (zoomBehavior : ZoomBehavior) : BrowserApi × List HostCall :=
  let d := lookupDefaultZoom env streamInfo
  let i := lookupInitialZoom env streamInfo
  ({ streamInfo_ := streamInfo, defaultZoom_ := d.1, initialZoom_ := i.1,
     zoomBehavior_ := zoomBehavior },
   d.2 ++ i.2)

/-- `getStreamInfo()`. -/
def getStreamInfo (api : BrowserApi) : StreamInfo :=
  api.streamInfo_

/-- `getDefaultZoom()`. -/
def getDefaultZoom (api : BrowserApi) : Rat :=
  api.defaultZoom_

/-- `getInitialZoom()`. -/
def getInitialZoom (api : BrowserApi) : Rat :=
  api.initialZoom_

/-- `getZoomBehavior()`. -/
def getZoomBehavior (api : BrowserApi) : ZoomBehavior :=
  api.zoomBehavior_

/-- `setZoom(zoom)`: `assert(this.zoomBehavior_ === MANAGE, ...)` and, only
when the assertion passes, the `chrome.tabs.setZoom` host call.  The failed
assertion is a hard failure carrying the assertion message and issuing no
host call. -/
def setZoom (api : BrowserApi) (zoom : Rat) :
    Except String (List HostCall) :=
  if api.zoomBehavior_ = ZoomBehavior.MANAGE then
    Except.ok [HostCall.setZoom api.streamInfo_.tabId zoom]
  else
    Except.error "Viewer does not manage browser zoom."

/-- A `chrome.tabs.onZoomChange` event payload. -/
structure ZoomChangeInfo where
  tabId : Int
  newZoomFactor : Rat
deriving DecidableEq, Repr

/-- `addZoomEventListener(listener)`: returns without registering anything
unless `zoomBehavior_` is `MANAGE` or `PROPAGATE_PARENT`; otherwise registers
a wrapper on `chrome.tabs.onZoomChange` that drops events whose `tabId`
differs from `streamInfo_.tabId` and forwards `newZoomFactor` otherwise.
The result is the registered wrapper (`none` when nothing was registered);
the wrapper maps an event to the value the caller's listener is invoked
with (`none` when the event is discarded). -/
def addZoomEventListener (api : BrowserApi) :
    Option (ZoomChangeInfo → Option Rat) :=
  if ¬(api.zoomBehavior_ = ZoomBehavior.MANAGE ∨
       api.zoomBehavior_ = ZoomBehavior.PROPAGATE_PARENT) then
    none
  else
    some (fun info =>
      if info.tabId ≠ api.streamInfo_.tabId then none
      else some info.newZoomFactor)

/-- End-to-end delivery of one zoom-change event to a listener registered via
`addZoomEventListener`: the value the listener is invoked with, or `none`
when no wrapper was registered or the wrapper discards the event. -/
def zoomEventDelivery (api : BrowserApi) (info : ZoomChangeInfo) :
    Option Rat :=
  match api.addZoomEventListener with
  | none => none
  | some wrapper => wrapper info

end BrowserApi

/-- `createBrowserApiForMimeHandlerView()`: ask `mimeHandlerPrivate` for the
stream info; if `tabId !== -1`, pick `PROPAGATE_PARENT`/`MANAGE` from
`embedded`, issue a `chrome.tabs.get` (whose continuation records `tab.url`
into `streamInfo.tabUrl` when a tab is delivered) and, when the behaviour is
`MANAGE`, a `chrome.tabs.setZoomSettings(tabId, {mode:'manual',
scope:'per-tab'})`; wait for all of those, then `BrowserApi.create`.  When
`chrome.tabs` is absent and a per-tab call is attempted, the member access
throws and the chain aborts (`Except.error`). -/
def createBrowserApiForMimeHandlerView (env : ChromeEnv) :
    Except String (BrowserApi × List HostCall) :=
  let streamInfo := env.streamInfoResult
  if streamInfo.tabId ≠ -1 then
    let zoomBehavior :=
      if streamInfo.embedded then ZoomBehavior.PROPAGATE_PARENT
      else ZoomBehavior.MANAGE
    match env.tabsApi with
    | none => Except.error "TypeError: chrome.tabs is undefined"
    | some tabs =>
      let streamInfo1 :=
        match tabs.tabs streamInfo.tabId with
        | some tab => { streamInfo with tabUrl := some tab.url }
        | none => streamInfo
      let tabCalls := [HostCall.getTab streamInfo.tabId]
      let zoomModeCalls :=
        if zoomBehavior = ZoomBehavior.MANAGE then
          [HostCall.setZoomSettings streamInfo.tabId "manual" "per-tab"]
        else []
      let created := BrowserApi.create env streamInfo1 zoomBehavior
      Except.ok (created.1,
        HostCall.getStreamInfo :: (tabCalls ++ zoomModeCalls) ++ created.2)
  else
    let created := BrowserApi.create env streamInfo ZoomBehavior.NONE
    Except.ok (created.1, HostCall.getStreamInfo :: created.2)

/-- `createBrowserApiForPrintPreview()`: build `streamInfo` from
`window.location.search.substring(1)` (both URL fields; empty headers;
`embedded` iff `window.parent !== window`; `tabId` −1); when `chrome.tabs`
exists, `chrome.tabs.getCurrent` fills `tabId`/`tabUrl`; then
`BrowserApi.create` with behaviour `NONE`.  `locationSearch` is the page's
query string including its leading `?`; `isFramed` is
`window.parent !== window`. -/
def createBrowserApiForPrintPreview (env : ChromeEnv)
    (locationSearch : String) (isFramed : Bool) :
    BrowserApi × List HostCall :=
  let url := locationSearch.drop 1
  let streamInfo : StreamInfo :=
    { streamUrl := url, originalUrl := url, responseHeaders := [],
      embedded := isFramed, tabId := -1 }
  let afterTab :=
    match env.tabsApi with
    | none => (streamInfo, ([] : List HostCall))
    | some tabs =>
      ({ streamInfo with
          tabId := tabs.currentTab.id,
          tabUrl := some tabs.currentTab.url },
       [HostCall.getCurrentTab])
  let created := BrowserApi.create env afterTab.1 ZoomBehavior.NONE
  (created.1, afterTab.2 ++ created.2)

/-- Which factory a bootstrap entry point selects. -/
inductive BootstrapPath where
  | printPreview
  | mimeHandler
deriving DecidableEq, Repr

/-- The branch taken by the function `createBrowserApi()`:
print preview iff `location.origin === 'chrome://print'`. -/
def createBrowserApiPath (locationOrigin : String) : BootstrapPath :=
  if locationOrigin = "chrome://print" then BootstrapPath.printPreview
  else BootstrapPath.mimeHandler

/-- `createBrowserApi()`: dispatch on `location.origin`. -/
def createBrowserApi (env : ChromeEnv) (locationOrigin : String)
    (locationSearch : String) (isFramed : Bool) :
    Except String (BrowserApi × List HostCall) :=
  if locationOrigin = "chrome://print" then
    Except.ok (createBrowserApiForPrintPreview env locationSearch isFramed)
  else
    createBrowserApiForMimeHandlerView env

/-- The path the top-level startup statement
`browser_api = createBrowserApiForMimeHandlerView();` actually takes:
it never consults the origin. -/
def startupPath (_locationOrigin : String) : BootstrapPath :=
  BootstrapPath.mimeHandler

/-- The descriptor the startup statement produces. -/
def startupBrowserApi (env : ChromeEnv) :
    Except String (BrowserApi × List HostCall) :=
  createBrowserApiForMimeHandlerView env

/-- JavaScript `a.startsWith(p)` on character lists (used to build the
`indexOf` substring search below). -/
def startsWithList : List Char → List Char → Bool
  | [], _ => true
  | _ :: _, [] => false
  | p :: ps, x :: xs => p = x && startsWithList ps xs

/-- JavaScript `s.indexOf(pat) != -1` on character lists: some suffix of `s`
starts with `pat`. -/
def jsIncludes (pat : List Char) : List Char → Bool
  | [] => startsWithList pat []
  | x :: xs => startsWithList pat (x :: xs) || jsIncludes pat xs

/-- JavaScript `s.split(c)` for a one-character separator: the (nonempty)
list of the chunks between occurrences of `c`. -/
def jsSplitChar (c : Char) : List Char → List (List Char)
  | [] => [[]]
  | x :: xs =>
    match jsSplitChar c xs with
    | [] => [[]]
    | h :: t => if x = c then [] :: h :: t else (x :: h) :: t

/-- `isAlreadyRedirected(originalUrl)`: when the URL contains `?`, test
whether `originalUrl.split('?')[1]` contains the substring
`edgeRedirected`; otherwise `false`. -/
def isAlreadyRedirected (originalUrl : String) : Bool :=
  if originalUrl.toList.contains '?' then
    jsIncludes "edgeRedirected".toList
      ((jsSplitChar '?' originalUrl.toList).getD 1 [])
  else false

/-- `addRedirectedQueryParam(originalUrl)`: append `&edgeRedirected` when the
URL already contains `?`, else append `?edgeRedirected`. -/
def addRedirectedQueryParam (originalUrl : String) : String :=
  if originalUrl.toList.contains '?' then originalUrl ++ "&edgeRedirected"
  else originalUrl ++ "?edgeRedirected"

/-- The operations a constructed descriptor exposes. -/
inductive ApiOp where
  | getStreamInfoOp
  | getDefaultZoomOp
  | getInitialZoomOp
  | getZoomBehaviorOp
  | setZoomOp (zoom : Rat)
  | addZoomEventListenerOp

/-- Result of one descriptor operation. -/
inductive ApiOpResult where
  | stream (s : StreamInfo)
  | factor (r : Rat)
  | behavior (b : ZoomBehavior)
  | zoomSet (r : Except String (List HostCall))
  | listener (r : Option (BrowserApi.ZoomChangeInfo → Option Rat))

/-- One descriptor operation as a state transformer on the descriptor: the
result paired with the descriptor as the operation's body leaves it.  None
of the method bodies in the source assigns to `this.streamInfo_`,
`this.defaultZoom_`, `this.initialZoom_` or `this.zoomBehavior_` (only the
constructor does), so each branch returns the fields unchanged. -/
def BrowserApi.runOp (api : BrowserApi) : ApiOp → ApiOpResult × BrowserApi
  | ApiOp.getStreamInfoOp => (ApiOpResult.stream api.getStreamInfo, api)
  | ApiOp.getDefaultZoomOp => (ApiOpResult.factor api.getDefaultZoom, api)
  | ApiOp.getInitialZoomOp => (ApiOpResult.factor api.getInitialZoom, api)
  | ApiOp.getZoomBehaviorOp => (ApiOpResult.behavior api.getZoomBehavior, api)
  | ApiOp.setZoomOp zoom => (ApiOpResult.zoomSet (api.setZoom zoom), api)
  | ApiOp.addZoomEventListenerOp =>
      (ApiOpResult.listener api.addZoomEventListener, api)

/-- A host call is one of the per-tab context operations issued before the
zoom lookups (`chrome.tabs.get` or `chrome.tabs.setZoomSettings`). -/
def isTabContextCall : HostCall → Bool
  | HostCall.getTab _ => true
  | HostCall.setZoomSettings _ _ _ => true
  | _ => false

/-- A host call is one of the two zoom lookups issued by `BrowserApi.create`. -/
def isZoomLookupCall : HostCall → Bool
  | HostCall.getZoomSettings _ => true
  | HostCall.getZoom _ => true
  | _ => false

/-- A host call is a `chrome.tabs.setZoomSettings` request. -/
def isSetZoomSettingsCall : HostCall → Bool
  | HostCall.setZoomSettings _ _ _ => true
  | _ => false

/-! Concrete fixtures used by the witness theorems. -/

/-- A concrete `chrome.tabs` response table. -/
def tabsApiW : TabsApi where
  zoomSettingsDefault := fun _ => (5 : Rat) / 4
  currentZoom := fun _ => 1
  tabs := fun i => some ⟨i, "https://example.com/doc"⟩
  currentTab := ⟨3, "https://example.com/cur"⟩

/-- A concrete mime-handler stream: valid tab 7, not embedded. -/
def siW : StreamInfo where
  streamUrl := "stream://1"
  originalUrl := "https://example.com/a.doc"
  responseHeaders := []
  embedded := false
  tabId := 7
  mimeType := some "application/msword"

/-- Environment with tab 7 and zoom capability. -/
def envW : ChromeEnv := ⟨some tabsApiW, siW⟩

/-- Environment whose stream reports the no-tab sentinel. -/
def envN : ChromeEnv := ⟨some tabsApiW, { siW with tabId := -1 }⟩

/-- The descriptor the mime-handler bootstrap produces from `envW`. -/
def apiW : BrowserApi :=
  ⟨{ siW with tabUrl := some "https://example.com/doc" },
   (5 : Rat) / 4, 1, ZoomBehavior.MANAGE⟩

/-- The host-call trace the mime-handler bootstrap produces from `envW`. -/
def traceW : List HostCall :=
  [HostCall.getStreamInfo, HostCall.getTab 7,
   HostCall.setZoomSettings 7 "manual" "per-tab",
   HostCall.getZoomSettings 7, HostCall.getZoom 7]

/-- The descriptor the mime-handler bootstrap produces from `envN`. -/
def apiN : BrowserApi :=
  ⟨{ siW with tabId := -1 }, 1, 1, ZoomBehavior.NONE⟩

/-- A descriptor whose zoom behaviour is `NONE` (as on the no-tab path). -/
def apiNone : BrowserApi := ⟨siW, 1, 1, ZoomBehavior.NONE⟩

/-- A descriptor whose zoom behaviour is `PROPAGATE_PARENT`. -/
def apiProp : BrowserApi :=
  ⟨{ siW with embedded := true }, 1, 1, ZoomBehavior.PROPAGATE_PARENT⟩

/-! Theorems settling the claims. -/

/-- C9: every operation a constructed descriptor exposes (the read accessors,
`setZoom`, `addZoomEventListener`) leaves the descriptor — in particular its
`streamInfo_` reference, `defaultZoom_`, `initialZoom_` and `zoomBehavior_`
fields — exactly as the constructor set them. -/
theorem descriptor_ops_preserve_descriptor (api : BrowserApi) (op : ApiOp) :
    (api.runOp op).2 = api ∧
    (api.runOp op).2.streamInfo_ = api.streamInfo_ ∧
    (api.runOp op).2.defaultZoom_ = api.defaultZoom_ ∧
    (api.runOp op).2.initialZoom_ = api.initialZoom_ ∧
    (api.runOp op).2.zoomBehavior_ = api.zoomBehavior_ := by
  cases op <;> exact ⟨rfl, rfl, rfl, rfl, rfl⟩

/-- C3: `setZoom` hard-fails (assertion message, no host call) whenever
`zoomBehavior_` is `NONE` or `PROPAGATE_PARENT`, and any successful call —
the only way a `chrome.tabs.setZoom` request is issued — requires
`zoomBehavior_ = MANAGE`. -/
theorem setZoom_requires_manage (api : BrowserApi) (zoom : Rat) :
    ((api.zoomBehavior_ = ZoomBehavior.NONE ∨
      api.zoomBehavior_ = ZoomBehavior.PROPAGATE_PARENT) →
      api.setZoom zoom =
        Except.error "Viewer does not manage browser zoom.") ∧
    (∀ calls : List HostCall, api.setZoom zoom = Except.ok calls →
      api.zoomBehavior_ = ZoomBehavior.MANAGE ∧
      calls = [HostCall.setZoom api.streamInfo_.tabId zoom]) := by
  constructor
  · intro h
    rcases h with h | h <;> simp [BrowserApi.setZoom, h]
  · intro calls h
    by_cases hm : api.zoomBehavior_ = ZoomBehavior.MANAGE
    · refine ⟨hm, ?_⟩
      simpa [BrowserApi.setZoom, hm] using h.symm
    · simp [BrowserApi.setZoom, hm] at h

/-- C3 witness: on a concrete `PROPAGATE_PARENT` descriptor, `setZoom`
fails with the assertion message. -/
theorem setZoom_requires_manage_witness :
    apiProp.setZoom 2 =
      Except.error "Viewer does not manage browser zoom." :=
  (setZoom_requires_manage apiProp 2).1 (Or.inr rfl)

/-- C4: registering a zoom listener is a no-op (nothing is registered, no
event is ever delivered) unless `zoomBehavior_` is `MANAGE` or
`PROPAGATE_PARENT`; and an event whose `tabId` differs from the
descriptor's `streamInfo_.tabId` is never delivered, whatever the
behaviour. -/
theorem zoomEventListener_guarded (api : BrowserApi)
    (info : BrowserApi.ZoomChangeInfo) :
    (¬(api.zoomBehavior_ = ZoomBehavior.MANAGE ∨
       api.zoomBehavior_ = ZoomBehavior.PROPAGATE_PARENT) →
      api.addZoomEventListener = none ∧
      api.zoomEventDelivery info = none) ∧
    (info.tabId ≠ api.streamInfo_.tabId →
      api.zoomEventDelivery info = none) := by
  constructor
  · intro h
    constructor
    · simp [BrowserApi.addZoomEventListener, h]
    · simp [BrowserApi.zoomEventDelivery, BrowserApi.addZoomEventListener, h]
  · intro h
    by_cases hb : api.zoomBehavior_ = ZoomBehavior.MANAGE ∨
        api.zoomBehavior_ = ZoomBehavior.PROPAGATE_PARENT
    · simp [BrowserApi.zoomEventDelivery, BrowserApi.addZoomEventListener,
        hb, h]
    · simp [BrowserApi.zoomEventDelivery, BrowserApi.addZoomEventListener, hb]

/-- C4 witness: a zoom-change event for tab 8 is not delivered on a concrete
`MANAGE` descriptor for tab 7. -/
theorem zoomEventListener_guarded_witness :
    apiW.zoomEventDelivery ⟨8, 2⟩ = none :=
  (zoomEventListener_guarded apiW ⟨8, 2⟩).2 (by decide)

/-- C6 counterexample: the page origin is exactly the reserved print-preview
origin, yet the startup statement
`browser_api = createBrowserApiForMimeHandlerView();` still takes the
mime-handler path — contradicting "selects the print-preview path iff the
origin equals `chrome://print`". -/
theorem startup_ignores_print_origin :
    startupPath "chrome://print" = BootstrapPath.mimeHandler ∧
    startupPath "chrome://print" ≠ BootstrapPath.printPreview := by
  exact ⟨rfl, by decide⟩

/-- C6 (amended): the function `createBrowserApi` selects the print-preview
path iff the origin equals `chrome://print`, but the startup entry point
bypasses it and always takes the mime-handler path. -/
theorem createBrowserApiPath_origin_dispatch (locationOrigin : String) :
    (createBrowserApiPath locationOrigin = BootstrapPath.printPreview ↔
      locationOrigin = "chrome://print") ∧
    startupPath locationOrigin = BootstrapPath.mimeHandler ∧
    (∀ env : ChromeEnv,
      startupBrowserApi env = createBrowserApiForMimeHandlerView env) := by
  refine ⟨?_, rfl, fun _ => rfl⟩
  unfold createBrowserApiPath
  by_cases h : locationOrigin = "chrome://print" <;> simp [h]

/-- C6 (amended) witness: at the reserved origin the function selects the
print-preview path while the startup statement still takes the mime-handler
path. -/
theorem createBrowserApiPath_origin_dispatch_witness :
    createBrowserApiPath "chrome://print" = BootstrapPath.printPreview ∧
    startupPath "chrome://print" = BootstrapPath.mimeHandler :=
  have h := createBrowserApiPath_origin_dispatch "chrome://print"
  ⟨h.1.mpr rfl, h.2.1⟩

/-- C5: the print-preview bootstrap builds `streamInfo` from the query
string (the portion of `window.location.search` after its leading `?`):
both URL fields equal it, `responseHeaders` is empty, `embedded` is the
is-framed flag, `tabId` stays at its −1 default when no tab capability
exists, and the resulting descriptor's zoom behaviour is always `NONE`. -/
theorem printPreview_streamInfo_from_query (env : ChromeEnv)
    (locationSearch : String) (isFramed : Bool) :
    (createBrowserApiForPrintPreview env locationSearch
        isFramed).1.streamInfo_.originalUrl = locationSearch.drop 1 ∧
    (createBrowserApiForPrintPreview env locationSearch
        isFramed).1.streamInfo_.streamUrl = locationSearch.drop 1 ∧
    (createBrowserApiForPrintPreview env locationSearch
        isFramed).1.streamInfo_.responseHeaders = [] ∧
    (createBrowserApiForPrintPreview env locationSearch
        isFramed).1.streamInfo_.embedded = isFramed ∧
    (env.tabsApi = none →
      (createBrowserApiForPrintPreview env locationSearch
          isFramed).1.streamInfo_.tabId = -1) ∧
    (createBrowserApiForPrintPreview env locationSearch
        isFramed).1.zoomBehavior_ = ZoomBehavior.NONE := by
  cases htabs : env.tabsApi with
  | none =>
    simp [createBrowserApiForPrintPreview, BrowserApi.create, htabs]
  | some tabs =>
    simp [createBrowserApiForPrintPreview, BrowserApi.create, htabs]

/-- C5 witness: spec scenario 6 — query `?file=report.csv`, no tab
capability: both URL fields are `file=report.csv`, the tab id stays −1 and
the zoom behaviour is `NONE`. -/
theorem printPreview_streamInfo_from_query_witness :
    (createBrowserApiForPrintPreview ⟨none, siW⟩ "?file=report.csv"
        false).1.streamInfo_.originalUrl = "file=report.csv" ∧
    (createBrowserApiForPrintPreview ⟨none, siW⟩ "?file=report.csv"
        false).1.streamInfo_.tabId = -1 ∧
    (createBrowserApiForPrintPreview ⟨none, siW⟩ "?file=report.csv"
        false).1.zoomBehavior_ = ZoomBehavior.NONE :=
  have h := printPreview_streamInfo_from_query ⟨none, siW⟩
    "?file=report.csv" false
  ⟨h.1.trans (by decide), h.2.2.2.2.1 rfl, h.2.2.2.2.2⟩

/-- C2: when the stream reports the no-tab sentinel, or the environment has
no tab/zoom capability at all, any descriptor the mime-handler bootstrap
constructs has both zoom factors `1`, behaviour `NONE`, and its trace is
just the stream-info request — the zoom resolution issues no host call
(both lookups short-circuit to `(1, [])`). -/
theorem noTab_zoom_defaults (env : ChromeEnv)
    (h : env.streamInfoResult.tabId = -1 ∨ env.tabsApi = none) :
    ∀ api : BrowserApi, ∀ trace : List HostCall,
      createBrowserApiForMimeHandlerView env = Except.ok (api, trace) →
      api.defaultZoom_ = 1 ∧ api.initialZoom_ = 1 ∧
      api.zoomBehavior_ = ZoomBehavior.NONE ∧
      trace = [HostCall.getStreamInfo] ∧
      lookupDefaultZoom env api.streamInfo_ = (1, []) ∧
      lookupInitialZoom env api.streamInfo_ = (1, []) := by
  intro api trace hok
  by_cases hid : env.streamInfoResult.tabId = -1
  · unfold createBrowserApiForMimeHandlerView at hok
    rw [if_neg (by simp [hid])] at hok
    cases htabs : env.tabsApi with
    | none =>
      simp [BrowserApi.create, lookupDefaultZoom, lookupInitialZoom,
        htabs] at hok
      obtain ⟨rfl, rfl⟩ := hok
      simp [lookupDefaultZoom, lookupInitialZoom, htabs]
    | some tabs =>
      simp [BrowserApi.create, lookupDefaultZoom, lookupInitialZoom,
        htabs, hid] at hok
      obtain ⟨rfl, rfl⟩ := hok
      simp [lookupDefaultZoom, lookupInitialZoom, htabs, hid]
  · rcases h with h | h
    · exact absurd h hid
    · unfold createBrowserApiForMimeHandlerView at hok
      rw [if_pos hid] at hok
      rw [h] at hok
      exact absurd hok (by simp)

/-- C2 witness: with tab capability present but `tabId = -1`, the bootstrap
yields the descriptor `(1, 1, NONE)` and the trace contains only the
stream-info request. -/
theorem noTab_zoom_defaults_witness :
    apiN.defaultZoom_ = 1 ∧ apiN.initialZoom_ = 1 ∧
    apiN.zoomBehavior_ = ZoomBehavior.NONE ∧
    [HostCall.getStreamInfo] = [HostCall.getStreamInfo] ∧
    lookupDefaultZoom envN apiN.streamInfo_ = (1, []) ∧
    lookupInitialZoom envN apiN.streamInfo_ = (1, []) :=
  noTab_zoom_defaults envN (Or.inl rfl) apiN [HostCall.getStreamInfo] rfl

/-- C1: for every descriptor either bootstrap produces, `MANAGE` implies a
valid tab and a non-embedded stream, `PROPAGATE_PARENT` implies a valid tab
and an embedded stream; and on the mime-handler path with a valid tab the
behaviour is exactly `PROPAGATE_PARENT` when `embedded` and `MANAGE`
otherwise. -/
theorem zoomBehavior_matches_tab_and_embedding (env : ChromeEnv)
    (locationOrigin locationSearch : String) (isFramed : Bool) :
    ∀ api : BrowserApi, ∀ trace : List HostCall,
      createBrowserApi env locationOrigin locationSearch isFramed =
        Except.ok (api, trace) →
      (api.zoomBehavior_ = ZoomBehavior.MANAGE →
        api.streamInfo_.tabId ≠ -1 ∧ api.streamInfo_.embedded = false) ∧
      (api.zoomBehavior_ = ZoomBehavior.PROPAGATE_PARENT →
        api.streamInfo_.tabId ≠ -1 ∧ api.streamInfo_.embedded = true) ∧
      (locationOrigin ≠ "chrome://print" →
        env.streamInfoResult.tabId ≠ -1 →
        api.zoomBehavior_ =
          (if env.streamInfoResult.embedded then
            ZoomBehavior.PROPAGATE_PARENT
          else ZoomBehavior.MANAGE)) := by
  intro api trace hok
  unfold createBrowserApi at hok
  by_cases horigin : locationOrigin = "chrome://print"
  · rw [if_pos horigin] at hok
    have hb : api.zoomBehavior_ = ZoomBehavior.NONE := by
      cases htabs : env.tabsApi with
      | none =>
        simp [createBrowserApiForPrintPreview, BrowserApi.create,
          htabs] at hok
        obtain ⟨rfl, rfl⟩ := hok
        rfl
      | some tabs =>
        simp [createBrowserApiForPrintPreview, BrowserApi.create,
          htabs] at hok
        obtain ⟨rfl, rfl⟩ := hok
        rfl
    refine ⟨fun hm => ?_, fun hm => ?_, fun ho => absurd horigin ho⟩
    · rw [hb] at hm; cases hm
    · rw [hb] at hm; cases hm
  · rw [if_neg horigin] at hok
    unfold createBrowserApiForMimeHandlerView at hok
    by_cases hid : env.streamInfoResult.tabId ≠ -1
    · rw [if_pos hid] at hok
      cases htabs : env.tabsApi with
      | none => rw [htabs] at hok; simp at hok
      | some tabs =>
        rw [htabs] at hok
        cases htab : tabs.tabs env.streamInfoResult.tabId with
        | none =>
          simp [BrowserApi.create, htab] at hok
          obtain ⟨rfl, rfl⟩ := hok
          by_cases hemb : env.streamInfoResult.embedded <;>
            simp [hemb, hid]
        | some tab =>
          simp [BrowserApi.create, htab] at hok
          obtain ⟨rfl, rfl⟩ := hok
          by_cases hemb : env.streamInfoResult.embedded <;>
            simp [hemb, hid]
    · rw [if_neg hid] at hok
      simp [BrowserApi.create] at hok
      obtain ⟨rfl, rfl⟩ := hok
      refine ⟨fun hm => ?_, fun hm => ?_, fun _ hid2 => absurd hid2 hid⟩
      · cases hm
      · cases hm

/-- C1 witness: spec scenario 7 — tab 7, not embedded, with zoom capability:
the descriptor's behaviour is `MANAGE`, its tab is valid and its stream is
not embedded. -/
theorem zoomBehavior_matches_tab_and_embedding_witness :
    apiW.zoomBehavior_ = ZoomBehavior.MANAGE ∧
    apiW.streamInfo_.tabId ≠ -1 ∧ apiW.streamInfo_.embedded = false :=
  have h := zoomBehavior_matches_tab_and_embedding envW
    "https://example.com" "" false apiW traceW rfl
  have hm : apiW.zoomBehavior_ = ZoomBehavior.MANAGE := by
    have h3 := h.2.2 (by decide) (by decide)
    simpa [envW, siW] using h3
  ⟨hm, (h.1 hm).1, (h.1 hm).2⟩

/-- C8: in the mime-handler bootstrap, the trace contains the per-tab
`setZoomSettings(tabId, {mode:'manual', scope:'per-tab'})` request exactly
once when the behaviour resolved to `MANAGE`, and contains no
`setZoomSettings` request at all otherwise. -/
theorem manual_zoom_mode_request_iff_manage (env : ChromeEnv) :
    ∀ api : BrowserApi, ∀ trace : List HostCall,
      createBrowserApiForMimeHandlerView env = Except.ok (api, trace) →
      trace.count (HostCall.setZoomSettings env.streamInfoResult.tabId
          "manual" "per-tab") =
        (if api.zoomBehavior_ = ZoomBehavior.MANAGE then 1 else 0) ∧
      trace.countP isSetZoomSettingsCall =
        (if api.zoomBehavior_ = ZoomBehavior.MANAGE then 1 else 0) := by
  intro api trace hok
  unfold createBrowserApiForMimeHandlerView at hok
  by_cases hid : env.streamInfoResult.tabId ≠ -1
  · rw [if_pos hid] at hok
    cases htabs : env.tabsApi with
    | none => rw [htabs] at hok; simp at hok
    | some tabs =>
      rw [htabs] at hok
      cases htab : tabs.tabs env.streamInfoResult.tabId with
      | none =>
        simp [BrowserApi.create, htab] at hok
        obtain ⟨rfl, rfl⟩ := hok
        by_cases hemb : env.streamInfoResult.embedded <;>
          by_cases hlt : env.streamInfoResult.tabId < 0 <;>
          simp [lookupDefaultZoom, lookupInitialZoom, htabs, hemb, hlt,
            List.count_cons, List.count_append, List.countP_cons,
            List.countP_append, isSetZoomSettingsCall]
      | some tab =>
        simp [BrowserApi.create, htab] at hok
        obtain ⟨rfl, rfl⟩ := hok
        by_cases hemb : env.streamInfoResult.embedded <;>
          by_cases hlt : env.streamInfoResult.tabId < 0 <;>
          simp [lookupDefaultZoom, lookupInitialZoom, htabs, hemb, hlt,
            List.count_cons, List.count_append, List.countP_cons,
            List.countP_append, isSetZoomSettingsCall]
  · rw [if_neg hid] at hok
    push_neg at hid
    simp [BrowserApi.create, lookupDefaultZoom, lookupInitialZoom,
      hid] at hok
    rcases htabs : env.tabsApi with - | tabs <;> rw [htabs] at hok <;>
      obtain ⟨rfl, rfl⟩ := hok <;>
      simp [List.count_cons, List.countP_cons, isSetZoomSettingsCall]

/-- C8 witness: in the concrete `envW` run (tab 7, not embedded) the trace
contains the manual per-tab zoom-settings request exactly once. -/
theorem manual_zoom_mode_request_iff_manage_witness :
    traceW.count (HostCall.setZoomSettings envW.streamInfoResult.tabId
        "manual" "per-tab") =
      (if apiW.zoomBehavior_ = ZoomBehavior.MANAGE then 1 else 0) ∧
    traceW.countP isSetZoomSettingsCall =
      (if apiW.zoomBehavior_ = ZoomBehavior.MANAGE then 1 else 0) :=
  manual_zoom_mode_request_iff_manage envW apiW traceW rfl

/-- C7: every successful mime-handler bootstrap trace is the stream-info
request, then tab-context calls only (`chrome.tabs.get` /
`chrome.tabs.setZoomSettings`), then exactly the calls of the two zoom
lookups; and the descriptor's zoom fields are the values those lookups
resolved to, so construction happens only after both lookups. -/
theorem mimeHandler_tab_context_before_zoom_lookups (env : ChromeEnv) :
    ∀ api : BrowserApi, ∀ trace : List HostCall,
      createBrowserApiForMimeHandlerView env = Except.ok (api, trace) →
      ∃ pre : List HostCall,
        pre.all isTabContextCall = true ∧
        trace = HostCall.getStreamInfo ::
          (pre ++ ((lookupDefaultZoom env api.streamInfo_).2 ++
                   (lookupInitialZoom env api.streamInfo_).2)) ∧
        ((lookupDefaultZoom env api.streamInfo_).2).all isZoomLookupCall
          = true ∧
        ((lookupInitialZoom env api.streamInfo_).2).all isZoomLookupCall
          = true ∧
        api.defaultZoom_ = (lookupDefaultZoom env api.streamInfo_).1 ∧
        api.initialZoom_ = (lookupInitialZoom env api.streamInfo_).1 := by
  intro api trace hok
  unfold createBrowserApiForMimeHandlerView at hok
  by_cases hid : env.streamInfoResult.tabId ≠ -1
  · rw [if_pos hid] at hok
    cases htabs : env.tabsApi with
    | none => rw [htabs] at hok; simp at hok
    | some tabs =>
      rw [htabs] at hok
      cases htab : tabs.tabs env.streamInfoResult.tabId with
      | none =>
        simp [BrowserApi.create, htab] at hok
        obtain ⟨rfl, rfl⟩ := hok
        by_cases hemb : env.streamInfoResult.embedded
        · exact ⟨[HostCall.getTab env.streamInfoResult.tabId],
            by simp [isTabContextCall],
            by simp [hemb],
            by by_cases hlt : env.streamInfoResult.tabId < 0 <;>
              simp [lookupDefaultZoom, lookupInitialZoom, htabs, hlt,
                isZoomLookupCall],
            by by_cases hlt : env.streamInfoResult.tabId < 0 <;>
              simp [lookupDefaultZoom, lookupInitialZoom, htabs, hlt,
                isZoomLookupCall],
            rfl, rfl⟩
        · exact ⟨[HostCall.getTab env.streamInfoResult.tabId,
            HostCall.setZoomSettings env.streamInfoResult.tabId
              "manual" "per-tab"],
            by simp [isTabContextCall],
            by simp [hemb],
            by by_cases hlt : env.streamInfoResult.tabId < 0 <;>
              simp [lookupDefaultZoom, lookupInitialZoom, htabs, hlt,
                isZoomLookupCall],
            by by_cases hlt : env.streamInfoResult.tabId < 0 <;>
              simp [lookupDefaultZoom, lookupInitialZoom, htabs, hlt,
                isZoomLookupCall],
            rfl, rfl⟩
      | some tab =>
        simp [BrowserApi.create, htab] at hok
        obtain ⟨rfl, rfl⟩ := hok
        by_cases hemb : env.streamInfoResult.embedded
        · exact ⟨[HostCall.getTab env.streamInfoResult.tabId],
            by simp [isTabContextCall],
            by simp [hemb],
            by by_cases hlt : env.streamInfoResult.tabId < 0 <;>
              simp [lookupDefaultZoom, lookupInitialZoom, htabs, hlt,
                isZoomLookupCall],
            by by_cases hlt : env.streamInfoResult.tabId < 0 <;>
              simp [lookupDefaultZoom, lookupInitialZoom, htabs, hlt,
                isZoomLookupCall],
            rfl, rfl⟩
        · exact ⟨[HostCall.getTab env.streamInfoResult.tabId,
            HostCall.setZoomSettings env.streamInfoResult.tabId
              "manual" "per-tab"],
            by simp [isTabContextCall],
            by simp [hemb],
            by by_cases hlt : env.streamInfoResult.tabId < 0 <;>
              simp [lookupDefaultZoom, lookupInitialZoom, htabs, hlt,
                isZoomLookupCall],
            by by_cases hlt : env.streamInfoResult.tabId < 0 <;>
              simp [lookupDefaultZoom, lookupInitialZoom, htabs, hlt,
                isZoomLookupCall],
            rfl, rfl⟩
  · rw [if_neg hid] at hok
    push_neg at hid
    simp [BrowserApi.create] at hok
    obtain ⟨rfl, rfl⟩ := hok
    exact ⟨[], rfl,
      by simp [lookupDefaultZoom, lookupInitialZoom, hid],
      by rcases htabs : env.tabsApi with - | tabs <;>
        simp [lookupDefaultZoom, htabs, hid],
      by rcases htabs : env.tabsApi with - | tabs <;>
        simp [lookupInitialZoom, htabs, hid],
      rfl, rfl⟩

/-- C7 witness: the concrete `envW` trace splits as the stream-info request,
the two tab-context calls, then the two zoom-lookup calls whose results are
the descriptor's zoom fields. -/
theorem mimeHandler_tab_context_before_zoom_lookups_witness :
    ∃ pre : List HostCall,
      pre.all isTabContextCall = true ∧
      traceW = HostCall.getStreamInfo ::
        (pre ++ ((lookupDefaultZoom envW apiW.streamInfo_).2 ++
                 (lookupInitialZoom envW apiW.streamInfo_).2)) ∧
      ((lookupDefaultZoom envW apiW.streamInfo_).2).all isZoomLookupCall
        = true ∧
      ((lookupInitialZoom envW apiW.streamInfo_).2).all isZoomLookupCall
        = true ∧
      apiW.defaultZoom_ = (lookupDefaultZoom envW apiW.streamInfo_).1 ∧
      apiW.initialZoom_ = (lookupInitialZoom envW apiW.streamInfo_).1 :=
  mimeHandler_tab_context_before_zoom_lookups envW apiW traceW rfl

/-! Supporting lemmas for the redirect-marker round trip. -/

lemma toList_append (s t : String) :
    (s ++ t).toList = s.toList ++ t.toList :=
  String.data_append s t

lemma startsWithList_self (l : List Char) : startsWithList l l = true := by
  induction l with
  | nil => rfl
  | cons x xs ih => simp [startsWithList, ih]

lemma jsIncludes_suffix (pre pat : List Char) :
    jsIncludes pat (pre ++ pat) = true := by
  induction pre with
  | nil =>
    cases pat with
    | nil => rfl
    | cons p ps => simp [jsIncludes, startsWithList_self]
  | cons x xs ih => simp [jsIncludes, ih]

lemma jsSplitChar_ne_nil (c : Char) (l : List Char) :
    jsSplitChar c l ≠ [] := by
  cases l with
  | nil => simp [jsSplitChar]
  | cons x xs =>
    cases h : jsSplitChar c xs with
    | nil => simp [jsSplitChar, h]
    | cons hd tl =>
      simp only [jsSplitChar, h]
      split <;> simp

lemma jsSplitChar_of_not_mem (c : Char) (l : List Char) (h : c ∉ l) :
    jsSplitChar c l = [l] := by
  induction l with
  | nil => rfl
  | cons x xs ih =>
    have hx : x ≠ c := fun hcontr => h (by simp [hcontr])
    have hxs : c ∉ xs := fun hm => h (List.mem_cons_of_mem _ hm)
    simp [jsSplitChar, ih hxs, hx]

lemma jsSplitChar_append_sep (c : Char) (b : List Char) :
    ∀ a : List Char, c ∉ a →
      jsSplitChar c (a ++ c :: b) = a :: jsSplitChar c b := by
  intro a
  induction a with
  | nil =>
    intro _
    obtain ⟨h0, t0, hsplit⟩ :
        ∃ h0 t0, jsSplitChar c b = h0 :: t0 := by
      cases hs : jsSplitChar c b with
      | nil => exact absurd hs (jsSplitChar_ne_nil c b)
      | cons h0 t0 => exact ⟨h0, t0, rfl⟩
    simp [jsSplitChar, hsplit]
  | cons x xs ih =>
    intro h
    have hx : x ≠ c := fun hcontr => h (by simp [hcontr])
    have hxs : c ∉ xs := fun hm => h (List.mem_cons_of_mem _ hm)
    simp [jsSplitChar, ih hxs, hx]

lemma count_one_decomp (c : Char) :
    ∀ l : List Char, l.count c = 1 →
      ∃ a b, l = a ++ c :: b ∧ c ∉ a ∧ c ∉ b := by
  intro l
  induction l with
  | nil => intro h; simp at h
  | cons x xs ih =>
    intro h
    by_cases hx : x = c
    · subst hx
      have hxs : xs.count x = 0 := by
        rw [List.count_cons] at h
        simp at h
        exact h
      exact ⟨[], xs, by simp, by simp, List.count_eq_zero.mp hxs⟩
    · rw [List.count_cons] at h
      have hbeq : (x == c) = false := by simp [hx]
      rw [hbeq] at h
      simp at h
      obtain ⟨a, b, rfl, ha, hb⟩ := ih h
      refine ⟨x :: a, b, by simp, fun hm => ?_, hb⟩
      rcases List.mem_cons.mp hm with h1 | h1
      · exact hx h1.symm
      · exact ha h1

/-- C10 counterexample: for a URL that already contains two `?` characters,
appending the marker with `addRedirectedQueryParam` is NOT detected by
`isAlreadyRedirected` — `split('?')[1]` only inspects the text between the
first and second `?`, while the marker lands after the last one. -/
theorem redirect_roundtrip_counterexample :
    isAlreadyRedirected (addRedirectedQueryParam "https://h/a?b?c")
      = false := by decide

/-- C10 (amended): for every URL containing at most one `?`, the marker
appended by `addRedirectedQueryParam` is detected by
`isAlreadyRedirected`, so such a URL is never marked twice. -/
theorem redirect_roundtrip_single_query (u : String)
    (h : u.toList.count '?' ≤ 1) :
    isAlreadyRedirected (addRedirectedQueryParam u) = true := by
  by_cases hq : '?' ∈ u.toList
  · have hcount : u.toList.count '?' = 1 := by
      have h1 := List.count_pos_iff.mpr hq
      omega
    obtain ⟨a, b, habl, ha, hb⟩ := count_one_decomp '?' u.toList hcount
    have hc : u.toList.contains '?' = true := List.elem_iff.mpr hq
    rw [addRedirectedQueryParam, if_pos hc]
    have hlist : (u ++ "&edgeRedirected").toList
        = a ++ '?' :: (b ++ '&' :: "edgeRedirected".toList) := by
      rw [toList_append, habl]
      have hamp : ("&edgeRedirected".toList : List Char)
          = '&' :: "edgeRedirected".toList := by decide
      rw [hamp]
      simp
    have hnb : '?' ∉ b ++ '&' :: "edgeRedirected".toList := by
      intro hmem
      rcases List.mem_append.mp hmem with hmem | hmem
      · exact hb hmem
      · rcases List.mem_cons.mp hmem with h1 | h1
        · exact absurd h1 (by decide)
        · exact absurd h1 (by decide)
    simp only [isAlreadyRedirected]
    rw [hlist]
    rw [if_pos (List.elem_iff.mpr
      (List.mem_append.mpr (Or.inr (List.mem_cons_self _ _))))]
    rw [jsSplitChar_append_sep '?' _ a ha,
      jsSplitChar_of_not_mem '?' _ hnb]
    have hsx : b ++ '&' :: "edgeRedirected".toList
        = (b ++ ['&']) ++ "edgeRedirected".toList := by simp
    simp only [List.getD_cons_succ, List.getD_cons_zero]
    rw [hsx]
    exact jsIncludes_suffix (b ++ ['&']) _
  · have hc : u.toList.contains '?' = false := by
      cases hcc : u.toList.contains '?'
      · rfl
      · exact absurd (List.elem_iff.mp hcc) hq
    rw [addRedirectedQueryParam,
      if_neg (fun hcontr => by rw [hc] at hcontr; exact Bool.noConfusion hcontr)]
    have hlist : (u ++ "?edgeRedirected").toList
        = u.toList ++ '?' :: "edgeRedirected".toList := by
      rw [toList_append]
      have hqm : ("?edgeRedirected".toList : List Char)
          = '?' :: "edgeRedirected".toList := by decide
      rw [hqm]
    simp only [isAlreadyRedirected]
    rw [hlist]
    rw [if_pos (List.elem_iff.mpr
      (List.mem_append.mpr (Or.inr (List.mem_cons_self _ _))))]
    rw [jsSplitChar_append_sep '?' _ u.toList hq,
      jsSplitChar_of_not_mem '?' "edgeRedirected".toList (by decide)]
    simp only [List.getD_cons_succ, List.getD_cons_zero]
    have := jsIncludes_suffix [] "edgeRedirected".toList
    simpa using this

/-- C10 (amended) witness: a typical single-`?` URL round-trips. -/
theorem redirect_roundtrip_single_query_witness :
    isAlreadyRedirected
      (addRedirectedQueryParam "https://example.com/f.docx?src=share")
      = true :=
  redirect_roundtrip_single_query "https://example.com/f.docx?src=share"
    (by decide)
